import Mathlib

/- Verification of the authenticated API-access layer of the tutor-admin
repository: the session store, the HTTP client wrapper's request/response
interceptors (src/src/api/axios.ts), the route guard
(src/src/routes/AppRouter.tsx), login-time persistence
(src/src/pages/Login.tsx, src/src/pages/Register.tsx), the list-view fetch
handlers (Users and Teachers pages), and the course editor's slug generator. -/

namespace TutorAdmin

/-! ### Session store

The store module itself (`src/store/authStore.ts`) is imported throughout the
source but its file is not among the provided sources, so its three operations
are modelled from the spec (section 4.1). -/

/-- The authenticated user identity, as in the `LoginResponse` interface of
`src/src/pages/Login.tsx`. -/
structure User where
  id : String
  name : String
  email : String
  deriving DecidableEq, Repr

/-- Session store state: token and user, each possibly absent, plus the
`isLoggedIn` flag (spec section 3). -/
structure AuthState where
  token : Option String
  user : Option User
  isLoggedIn : Bool
  deriving DecidableEq, Repr

/-- Modelled from the spec: `src/store/authStore.ts` is missing from the
provided sources. Spec 4.1: `login(token, user)` unconditionally overwrites
the session with the given token and user and marks `isLoggedIn = true`. -/
def AuthStore.login (t : String) (u : User) (_s : AuthState) : AuthState :=
  { token := some t, user := some u, isLoggedIn := true }

/-- Modelled from the spec: `src/store/authStore.ts` is missing from the
provided sources. Spec 4.1: `logout()` clears token and user and marks
`isLoggedIn = false`. -/
def AuthStore.logout (_s : AuthState) : AuthState :=
  { token := none, user := none, isLoggedIn := false }

/-- Modelled from the spec: `src/store/authStore.ts` is missing from the
provided sources. Spec 4.1: `getToken()` is a pure read returning the current
token or the absent marker. -/
def AuthStore.getToken (s : AuthState) : Option String :=
  s.token

/-- The Anonymous state of the spec's two-state machine; also the initial
state when no durable session exists. -/
def initialAuthState : AuthState :=
  { token := none, user := none, isLoggedIn := false }

/-- Operations a client may issue against the store: the two mutators of
spec 4.1 plus the pure `getToken` read (which leaves the state unchanged). -/
inductive StoreOp where
  | login (t : String) (u : User)
  | logout
  | readToken
  deriving DecidableEq, Repr

/-- Effect of one store operation on the store state. -/
def applyOp (s : AuthState) : StoreOp → AuthState
  | .login t u => AuthStore.login t u s
  | .logout => AuthStore.logout s
  | .readToken => s

/-- Effect of a sequence of store operations, first to last. -/
def runOps (s : AuthState) (ops : List StoreOp) : AuthState :=
  ops.foldl applyOp s

/-! ### HTTP client wrapper (src/src/api/axios.ts) -/

/-- A request configuration: the target URL plus the header map. Headers are
modelled as a partial map from header name to value, matching the mutable
`config.headers` object. -/
structure RequestConfig where
  url : String
  headers : String → Option String

/-- Setting one header on a header map, as the assignment
`config.headers.Authorization = ...` does. -/
def setHeader (hs : String → Option String) (name value : String) :
    String → Option String :=
  fun k => if k = name then some value else hs k

/-- The request interceptor of src/src/api/axios.ts lines 19-30: it reads
`useAuthStore.getState().token`; under the JavaScript truthiness test
`if (token)` (false for the absent marker and for the empty string) it sets
the Authorization header to the template string `Bearer ${token}`, otherwise
it returns the config unchanged. -/
def requestInterceptor (s : AuthState) (config : RequestConfig) : RequestConfig :=
  match AuthStore.getToken s with
  | some t =>
      if t == "" then config
      else { config with headers := setHeader config.headers "Authorization" ("Bearer " ++ t) }
  | none => config

/-- The `message` field of a structured backend error payload
(`err.response.data.message`), possibly absent. -/
structure ApiErrorBody where
  message : Option String
  deriving DecidableEq, Repr

/-- The `response` field of an axios error: HTTP status plus the optional
parsed body. -/
structure ErrorResponse where
  status : Nat
  data : Option ApiErrorBody
  deriving DecidableEq, Repr

/-- An error observed by the response interceptor. `response` is absent for
network/transport failures where no response was received. -/
structure AxiosError where
  response : Option ErrorResponse
  deriving DecidableEq, Repr

/-- The optional-chained status read `error.response?.status`. -/
def errStatus (e : AxiosError) : Option Nat :=
  e.response.map ErrorResponse.status

/-- The optional-chained message read `err.response?.data?.message`. -/
def errMessage (e : AxiosError) : Option String :=
  e.response.bind fun r => r.data.bind fun d => d.message

/-- Store mutations the response interceptor can issue. -/
inductive StoreEffect where
  | logout
  deriving DecidableEq, Repr

/-- Effect of one interceptor-issued store mutation. -/
def runEffect (s : AuthState) : StoreEffect → AuthState
  | .logout => AuthStore.logout s

/-- Effect of a list of interceptor-issued store mutations, first to last. -/
def runEffects (s : AuthState) (effs : List StoreEffect) : AuthState :=
  effs.foldl runEffect s

/-- The response-error interceptor of src/src/api/axios.ts lines 33-43: if
`error.response?.status === 401` it calls `useAuthStore.getState().logout()`,
then (in every case) returns `Promise.reject(error)`. The first component
records the store mutations performed, in order; the second is the settled
outcome handed to the caller. -/
def onResponseError (e : AxiosError) :
    List StoreEffect × Except AxiosError ErrorResponse :=
  (if errStatus e == some 401 then [StoreEffect.logout] else [],
   Except.error e)

/-! ### Route guard (src/src/routes/AppRouter.tsx lines 13-21) -/

/-- What a guarded render produces: either a navigation away (the `Navigate`
element with its `to` target and `replace` flag) or the wrapped children. -/
inductive RenderOutput (α : Type) where
  | navigate (target : String) (replaceHistory : Bool)
  | content (children : α)
  deriving DecidableEq, Repr

/-- The `ProtectedRoute` component: reads `isLoggedIn` from the store; when it
is false, renders `<Navigate to="/login" replace />`; otherwise renders the
children unchanged. -/
def ProtectedRoute {α : Type} (s : AuthState) (children : α) : RenderOutput α :=
  if !s.isLoggedIn then RenderOutput.navigate "/login" true
  else RenderOutput.content children

/-! ### Durable storage and login-time persistence
(src/src/pages/Login.tsx lines 42-53, src/src/pages/Register.tsx lines 57-64) -/

/-- One browser key-value storage scope. -/
def Storage : Type :=
  String → Option String

/-- The `setItem` operation of a storage scope. -/
def setItem (st : Storage) (key value : String) : Storage :=
  fun k => if k = key then some value else st k

/-- The `removeItem` operation of a storage scope. -/
def removeItem (st : Storage) (key : String) : Storage :=
  fun k => if k = key then none else st k

/-- The two browser storage scopes: `localStorage` (persists across restarts)
and `sessionStorage` (tab lifetime only). -/
structure BrowserStorage where
  localStore : Storage
  sessionStore : Storage

/-- Both scopes empty. -/
def emptyStorage : BrowserStorage :=
  { localStore := fun _ => none, sessionStore := fun _ => none }

/-- The persistence step of the Login page's `handleSubmit` success path
(src/src/pages/Login.tsx lines 49-53): `rememberMe` selects
`localStorage.setItem('authToken', token)` versus
`sessionStorage.setItem('authToken', token)`. -/
def loginPersistToken (rememberMe : Bool) (token : String) (st : BrowserStorage) :
    BrowserStorage :=
  if rememberMe then { st with localStore := setItem st.localStore "authToken" token }
  else { st with sessionStore := setItem st.sessionStore "authToken" token }

/-- The persistence step of the Register page's `handleSubmit` success path
(src/src/pages/Register.tsx line 64): always
`sessionStorage.setItem('authToken', token)`. -/
def registerPersistToken (token : String) (st : BrowserStorage) : BrowserStorage :=
  { st with sessionStore := setItem st.sessionStore "authToken" token }

/-- Modelled from the spec: `src/store/authStore.ts` is missing from the
provided sources. Spec 4.1: `logout()` "removes any durable copy", i.e. the
`authToken` key is removed from both storage scopes. -/
def logoutRemoveDurable (st : BrowserStorage) : BrowserStorage :=
  { localStore := removeItem st.localStore "authToken",
    sessionStore := removeItem st.sessionStore "authToken" }

/-! ### List-view fetch handlers (Users page src/unnamed/part_001,
Teachers page src/unnamed/part_002) -/

/-- The JavaScript string-or-default idiom `m || fallback`: the fallback is
used when `m` is absent or the empty string (both falsy). -/
def jsStringOr (m : Option String) (fallback : String) : String :=
  match m with
  | some s => if s == "" then fallback else s
  | none => fallback

/-- A user row of the Users page's `User` interface. -/
structure UserRow where
  id : Nat
  name : String
  email : String
  status : String
  roles : List String
  createdAt : String
  deriving DecidableEq, Repr

/-- The pagination metadata of a list response. -/
structure PageMeta where
  page : Nat
  limit : Nat
  totalItems : Nat
  totalPages : Nat
  deriving DecidableEq, Repr

/-- The Users page's `UsersResponse` payload. -/
structure UsersResponse where
  data : List UserRow
  meta : PageMeta
  deriving DecidableEq, Repr

/-- The Users page's `ApiResponse` envelope. -/
structure UsersApiResponse where
  data : UsersResponse
  message : String
  deriving DecidableEq, Repr

/-- The view-state slices `fetchUsers` touches. -/
structure UsersPageState where
  users : List UserRow
  isLoading : Bool
  errorMsg : String
  totalPages : Nat
  totalItems : Nat
  deriving DecidableEq, Repr

/-- The `fetchUsers` handler of the Users page (src/unnamed/part_001 lines
227-247) as a state transformer over the view state, applied to the settled
outcome of the awaited GET: the try block first sets loading and clears the
error; on success it stores the returned rows and meta; on failure it only
sets the error message to `err.response?.data?.message || 'Failed to fetch
users'`; `finally` clears the loading flag. -/
def fetchUsers (st : UsersPageState) (outcome : Except AxiosError UsersApiResponse) :
    UsersPageState :=
  let st1 := { st with isLoading := true, errorMsg := "" }
  match outcome with
  | .ok resp =>
      { st1 with
          users := resp.data.data
          totalPages := resp.data.meta.totalPages
          totalItems := resp.data.meta.totalItems
          isLoading := false }
  | .error e =>
      { st1 with
          errorMsg := jsStringOr (errMessage e) "Failed to fetch users"
          isLoading := false }

/-- A teacher row of the Teachers page's `Teacher` interface. -/
structure TeacherRow where
  id : Nat
  name : String
  bio : Option String
  avatarUrl : Option String
  createdAt : Option String
  deriving DecidableEq, Repr

/-- The Teachers page's `TeachersResponse` payload. -/
structure TeachersResponse where
  data : List TeacherRow
  message : String
  deriving DecidableEq, Repr

/-- The view-state slices `fetchTeachers` touches. -/
structure TeachersPageState where
  teachers : List TeacherRow
  isLoading : Bool
  errorMsg : String
  deriving DecidableEq, Repr

/-- The `fetchTeachers` handler of the Teachers page (src/unnamed/part_002
lines 194-206) as a state transformer over the view state, applied to the
settled outcome of the awaited GET: on success it stores the returned rows;
on failure it only sets the error message to
`err.response?.data?.message || 'Failed to fetch teachers'`. -/
def fetchTeachers (st : TeachersPageState)
    (outcome : Except AxiosError TeachersResponse) : TeachersPageState :=
  let st1 := { st with isLoading := true, errorMsg := "" }
  match outcome with
  | .ok resp => { st1 with teachers := resp.data, isLoading := false }
  | .error e =>
      { st1 with
          errorMsg := jsStringOr (errMessage e) "Failed to fetch teachers"
          isLoading := false }

/-! ### Course editor slug generator (src/unnamed/part_003 lines 207-214)

`generateSlug` is the chain
`title.toLowerCase().trim().replace(/[^\w\s-]/g, '').replace(/[\s_-]+/g, '-').replace(/^-+|-+$/g, '')`.
Strings are modelled as lists of characters; the JavaScript regex character
classes are modelled on code points: `\w` is `[A-Za-z0-9_]`, `\s` is the
ECMAScript WhiteSpace plus LineTerminator set. -/

/-- Membership in the JavaScript regex class `\w`, by code point. -/
def jsWordCharN (n : Nat) : Bool :=
  (97 ≤ n && n ≤ 122) || (65 ≤ n && n ≤ 90) || (48 ≤ n && n ≤ 57) || n == 95

/-- Membership in the JavaScript regex class `\w`. -/
def jsWordChar (c : Char) : Bool :=
  jsWordCharN c.toNat

/-- Membership in the JavaScript regex class `\s` (ECMAScript WhiteSpace and
LineTerminator code points), by code point. -/
def jsSpaceCharN (n : Nat) : Bool :=
  (9 ≤ n && n ≤ 13) || n == 32 || n == 160 || n == 5760 ||
  (8192 ≤ n && n ≤ 8202) || n == 8232 || n == 8233 || n == 8239 ||
  n == 8287 || n == 12288 || n == 65279

/-- Membership in the JavaScript regex class `\s`. -/
def jsSpaceChar (c : Char) : Bool :=
  jsSpaceCharN c.toNat

/-- A character kept by the removal pass `.replace(/[^\w\s-]/g, '')`. -/
def keepChar (c : Char) : Bool :=
  jsWordChar c || jsSpaceChar c || c.toNat == 45

/-- A character matched by the collapsing pass `.replace(/[\s_-]+/g, '-')`. -/
def collapsibleChar (c : Char) : Bool :=
  jsSpaceChar c || c.toNat == 95 || c.toNat == 45

/-- ASCII lower-casing of one character, as `toLowerCase` acts on the
characters relevant here (`A`-`Z` map 32 code points up; all characters this
pipeline keeps are otherwise fixed by `toLowerCase`). -/
def jsToLower (c : Char) : Char :=
  if 65 ≤ c.toNat && c.toNat ≤ 90 then Char.ofNat (c.toNat + 32) else c

/-- Dropping a matching run from the end of a list. -/
def dropEnd (p : Char → Bool) (l : List Char) : List Char :=
  (l.reverse.dropWhile p).reverse

/-- The `trim()` call: whitespace stripped from both ends. -/
def jsTrim (l : List Char) : List Char :=
  dropEnd jsSpaceChar (l.dropWhile jsSpaceChar)

/-- The collapsing pass `.replace(/[\s_-]+/g, '-')`: each maximal run of
collapsible characters becomes a single hyphen. The flag records whether the
previous character belonged to a collapsible run. -/
def collapseRuns : Bool → List Char → List Char
  | _, [] => []
  | prev, c :: rest =>
      if collapsibleChar c then
        if prev then collapseRuns true rest
        else '-' :: collapseRuns true rest
      else c :: collapseRuns false rest

/-- The final pass `.replace(/^-+|-+$/g, '')`: the leading hyphen run and the
trailing hyphen run are removed. -/
def stripEdgeHyphens (l : List Char) : List Char :=
  dropEnd (fun c => c.toNat == 45) (l.dropWhile fun c => c.toNat == 45)

/-- The course editor's `generateSlug` (src/unnamed/part_003 lines 207-214):
lower-case, trim, drop everything outside `[\w\s-]`, collapse runs of
`[\s_-]` to single hyphens, strip edge hyphens. -/
def generateSlug (title : List Char) : List Char :=
  stripEdgeHyphens (collapseRuns false ((jsTrim (title.map jsToLower)).filter keepChar))

/-- A character allowed in a finished slug: lowercase ASCII letter, ASCII
digit, or hyphen. -/
def slugChar (c : Char) : Bool :=
  (97 ≤ c.toNat && c.toNat ≤ 122) || (48 ≤ c.toNat && c.toNat ≤ 57) || c.toNat == 45

/-- No two adjacent hyphens: the relation required between neighbours. -/
def notBothHyphens (a b : Char) : Prop :=
  ¬(a = '-' ∧ b = '-')

/-! ### Example values used to instantiate hypothesis-bearing theorems -/

/-- A concrete user, as in the spec's scenario section. -/
def exampleUser : User :=
  { id := "1", name := "A", email := "a@x.com" }

/-- A concrete request configuration with no headers set. -/
def exampleConfig : RequestConfig :=
  { url := "/admin/users", headers := fun _ => none }

/-- A concrete 401 error carrying no body. -/
def unauthorizedError : AxiosError :=
  { response := some { status := 401, data := none } }

/-- A concrete network failure: no response at all. -/
def networkError : AxiosError :=
  { response := none }

/-- A concrete 500 error whose structured message is the empty string. -/
def emptyMessageError : AxiosError :=
  { response := some { status := 500, data := some { message := some "" } } }

/-- A concrete 500 error with a nonempty structured message. -/
def boomError : AxiosError :=
  { response := some { status := 500, data := some { message := some "boom" } } }

/-- A concrete Users page view state. -/
def usersStateBefore : UsersPageState :=
  { users := [], isLoading := false, errorMsg := "", totalPages := 0, totalItems := 0 }

/-- A concrete Teachers page view state. -/
def teachersStateBefore : TeachersPageState :=
  { teachers := [], isLoading := false, errorMsg := "" }

/-! ### Claims about the response interceptor -/

/-- C1: for every error whose status is 401, the response interceptor calls
the store's logout exactly once (its mutation trace is exactly `[logout]`),
that mutation takes any prior store state to Anonymous, and the original
error is still rejected to the caller unchanged. -/
theorem unauthorized_logout_once_and_rethrow (e : AxiosError)
    (h : errStatus e = some 401) :
    (onResponseError e).1 = [StoreEffect.logout]
    ∧ (∀ s, runEffects s (onResponseError e).1 = initialAuthState)
    ∧ (onResponseError e).2 = Except.error e := by
  refine ⟨?_, ?_, rfl⟩ <;>
    simp [onResponseError, h, runEffects, runEffect, AuthStore.logout, initialAuthState]

/-- Witness for C1 at the concrete 401 error. -/
theorem unauthorized_logout_once_and_rethrow_witness :
    (onResponseError unauthorizedError).1 = [StoreEffect.logout]
    ∧ runEffects initialAuthState (onResponseError unauthorizedError).1 = initialAuthState
    ∧ (onResponseError unauthorizedError).2 = Except.error unauthorizedError :=
  ⟨(unauthorized_logout_once_and_rethrow unauthorizedError rfl).1,
   (unauthorized_logout_once_and_rethrow unauthorizedError rfl).2.1 initialAuthState,
   (unauthorized_logout_once_and_rethrow unauthorizedError rfl).2.2⟩

/-- C7: for every error whose status is not 401 — including network failures
carrying no response — the response interceptor issues no store mutation
(every store state is left unchanged) and rejects the original error
unchanged. -/
theorem non_unauthorized_error_frame (e : AxiosError)
    (h : errStatus e ≠ some 401) :
    (onResponseError e).1 = []
    ∧ (∀ s, runEffects s (onResponseError e).1 = s)
    ∧ (onResponseError e).2 = Except.error e := by
  have hb : (errStatus e == some 401) = false := beq_eq_false_iff_ne.mpr h
  refine ⟨?_, ?_, rfl⟩ <;> simp [onResponseError, hb, runEffects]

/-- Witness for C7 at the concrete network failure. -/
theorem non_unauthorized_error_frame_witness :
    (onResponseError networkError).1 = []
    ∧ runEffects initialAuthState (onResponseError networkError).1 = initialAuthState
    ∧ (onResponseError networkError).2 = Except.error networkError :=
  ⟨(non_unauthorized_error_frame networkError (by decide)).1,
   (non_unauthorized_error_frame networkError (by decide)).2.1 initialAuthState,
   (non_unauthorized_error_frame networkError (by decide)).2.2⟩

/-! ### Claims about the request interceptor -/

/-- Counterexample to C2 as stated: the store can hold the token `""` (login
unconditionally overwrites the session with the given token), and for that
held token the request interceptor attaches no authorization header at all,
because the source guards the attachment with the JavaScript truthiness test
`if (token)`, which the empty string fails. -/
theorem bearer_empty_token_counterexample :
    AuthStore.getToken (AuthStore.login "" exampleUser initialAuthState) = some ""
    ∧ (requestInterceptor (AuthStore.login "" exampleUser initialAuthState)
        exampleConfig).headers "Authorization" = none :=
  ⟨rfl, rfl⟩

/-- C2 amended: while the store holds a nonempty token `t`, the transmitted
request carries exactly `t` as a bearer credential in its Authorization
header and all other headers are unchanged; while no token or the empty
token is held, the request is passed through unmodified (in particular no
such header is added). -/
theorem bearer_attach_amended (s : AuthState) (cfg : RequestConfig) :
    (∀ t, AuthStore.getToken s = some t → t ≠ "" →
        (requestInterceptor s cfg).headers "Authorization" = some ("Bearer " ++ t)
        ∧ ∀ k, k ≠ "Authorization" → (requestInterceptor s cfg).headers k = cfg.headers k)
    ∧ (AuthStore.getToken s = none → requestInterceptor s cfg = cfg)
    ∧ (AuthStore.getToken s = some "" → requestInterceptor s cfg = cfg) := by
  refine ⟨?_, ?_, ?_⟩
  · intro t ht hne
    have hb : (t == "") = false := beq_eq_false_iff_ne.mpr hne
    refine ⟨?_, ?_⟩
    · simp [requestInterceptor, ht, hb, setHeader]
    · intro k hk
      simp [requestInterceptor, ht, hb, setHeader, hk]
  · intro h
    simp [requestInterceptor, h]
  · intro h
    simp [requestInterceptor, h]

/-- Witness for the amended C2 at a concrete nonempty token. -/
theorem bearer_attach_amended_witness :
    (requestInterceptor (AuthStore.login "tok-1" exampleUser initialAuthState)
      exampleConfig).headers "Authorization" = some ("Bearer " ++ "tok-1") :=
  ((bearer_attach_amended (AuthStore.login "tok-1" exampleUser initialAuthState)
    exampleConfig).1 "tok-1" rfl (by decide)).1

/-! ### Claim about the route guard -/

/-- C3: the guard is a function of the session state alone; when `isLoggedIn`
is false every protected render yields the redirect to the login view and
never the protected content, and when it is true the guard yields the
protected children unchanged. -/
theorem protected_route_guard {α : Type} (s : AuthState) (children : α) :
    (s.isLoggedIn = false →
        ProtectedRoute s children = RenderOutput.navigate "/login" true
        ∧ ∀ c : α, ProtectedRoute s children ≠ RenderOutput.content c)
    ∧ (s.isLoggedIn = true → ProtectedRoute s children = RenderOutput.content children) := by
  constructor
  · intro h
    refine ⟨?_, ?_⟩
    · simp [ProtectedRoute, h]
    · intro c
      simp [ProtectedRoute, h]
  · intro h
    simp [ProtectedRoute, h]

/-- Witness for C3 at the Anonymous state and a concrete protected view. -/
theorem protected_route_guard_witness :
    ProtectedRoute initialAuthState "dashboard" = RenderOutput.navigate "/login" true :=
  ((protected_route_guard initialAuthState "dashboard").1 rfl).1

/-! ### Claim about login-time persistence -/

/-- C4: starting from storage in which the `authToken` key is absent from
both scopes, the login success path makes the token durable under that
single key in the persists-across-restarts scope exactly when the remember-me
flag was set, and in the tab-lifetime scope exactly when it was not; no other
storage key is touched, and the Register page's persistence step coincides
with the non-remembered login path. -/
theorem login_persistence_scope (remember : Bool) (t : String) (st : BrowserStorage)
    (hl : st.localStore "authToken" = none)
    (hs : st.sessionStore "authToken" = none) :
    ((loginPersistToken remember t st).localStore "authToken" = some t ↔ remember = true)
    ∧ ((loginPersistToken remember t st).sessionStore "authToken" = some t ↔ remember = false)
    ∧ (∀ k, k ≠ "authToken" →
        (loginPersistToken remember t st).localStore k = st.localStore k
        ∧ (loginPersistToken remember t st).sessionStore k = st.sessionStore k)
    ∧ registerPersistToken t st = loginPersistToken false t st := by
  refine ⟨?_, ?_, ?_, rfl⟩ <;> cases remember <;>
    simp [loginPersistToken, setItem, hl, hs] <;> intro k hk <;> simp [hk]

/-- Witness for C4 at a concrete remembered login over empty storage. -/
theorem login_persistence_scope_witness :
    (loginPersistToken true "tok-1" emptyStorage).localStore "authToken" = some "tok-1" :=
  ((login_persistence_scope true "tok-1" emptyStorage rfl rfl).1).mpr rfl

/-! ### Claims about store operation sequences -/

/-- C5: in any operation sequence, after `login(t, u)` every subsequent
`getToken()` returns `t` as long as only reads (no further login or logout)
intervene. -/
theorem getToken_stable_after_login (s : AuthState) (t : String) (u : User)
    (ops : List StoreOp) (h : ∀ op ∈ ops, op = StoreOp.readToken) :
    AuthStore.getToken (runOps (AuthStore.login t u s) ops) = some t := by
  revert h
  induction ops with
  | nil => intro _; rfl
  | cons op rest ih =>
    intro h
    have hop : op = StoreOp.readToken := h op (List.mem_cons_self _ _)
    subst hop
    exact ih fun o ho => h o (List.mem_cons_of_mem _ ho)

/-- Witness for C5 at a concrete login followed by two reads. -/
theorem getToken_stable_after_login_witness :
    AuthStore.getToken (runOps (AuthStore.login "tok-1" exampleUser initialAuthState)
      [StoreOp.readToken, StoreOp.readToken]) = some "tok-1" :=
  getToken_stable_after_login initialAuthState "tok-1" exampleUser
    [StoreOp.readToken, StoreOp.readToken] (by decide)

/-- C6: after `logout()`, from any prior store state and any prior storage
contents, `getToken()` returns the absent marker, `isLoggedIn` is false, and
the durable `authToken` copy is removed from both storage scopes. -/
theorem logout_clears_session_and_durable (s : AuthState) (st : BrowserStorage) :
    AuthStore.getToken (AuthStore.logout s) = none
    ∧ (AuthStore.logout s).isLoggedIn = false
    ∧ (logoutRemoveDurable st).localStore "authToken" = none
    ∧ (logoutRemoveDurable st).sessionStore "authToken" = none := by
  refine ⟨rfl, rfl, ?_, ?_⟩ <;> simp [logoutRemoveDurable, removeItem]

/-! ### Claim about the session invariant -/

/-- The spec's invariant: the user field is present exactly when the token
field is present. -/
def SessionInv (s : AuthState) : Prop :=
  s.user.isSome = s.token.isSome

/-- Store states reachable from the Anonymous initial state through the three
mutation paths: caller login, caller logout, and the response interceptor's
forced-logout trace. -/
inductive ReachableAuth : AuthState → Prop where
  | init : ReachableAuth initialAuthState
  | doLogin (t : String) (u : User) (s : AuthState) :
      ReachableAuth s → ReachableAuth (AuthStore.login t u s)
  | doLogout (s : AuthState) :
      ReachableAuth s → ReachableAuth (AuthStore.logout s)
  | forced (s : AuthState) (e : AxiosError) :
      ReachableAuth s → ReachableAuth (runEffects s (onResponseError e).1)

/-- C8: the user-present-iff-token-present invariant holds in every reachable
store state, and is preserved by login, by logout, and by the wrapper's
forced-logout path. -/
theorem session_invariant :
    (∀ s, ReachableAuth s → SessionInv s)
    ∧ (∀ s t u, SessionInv s → SessionInv (AuthStore.login t u s))
    ∧ (∀ s, SessionInv s → SessionInv (AuthStore.logout s))
    ∧ (∀ s e, SessionInv s → SessionInv (runEffects s (onResponseError e).1)) := by
  have hforced : ∀ s e, SessionInv s → SessionInv (runEffects s (onResponseError e).1) := by
    intro s e h
    by_cases hb : (errStatus e == some 401) = true
    · simp [onResponseError, hb, runEffects, runEffect, AuthStore.logout, SessionInv]
    · simpa [onResponseError, hb, runEffects] using h
  have hinv : ∀ s, ReachableAuth s → SessionInv s := by
    intro s hr
    induction hr with
    | init => rfl
    | doLogin t u s' _ _ => rfl
    | doLogout s' _ _ => rfl
    | forced s' e _ ih => exact hforced s' e ih
  exact ⟨hinv, fun _ _ _ _ => rfl, fun _ _ => rfl, hforced⟩

/-- Witness for C8 at a concrete reachable state. -/
theorem session_invariant_witness :
    SessionInv (AuthStore.login "tok-1" exampleUser initialAuthState) :=
  session_invariant.2.1 initialAuthState "tok-1" exampleUser rfl

/-! ### Claims about the list-view fetch handlers -/

/-- Counterexample to C9 as stated: on a failing fetch whose backend payload
carries the structured message `""` (present but empty), the displayed error
is the generic fallback, not the backend's message, because the source uses
the JavaScript fallback idiom `err.response?.data?.message || '...'`, which
treats the empty string as absent. -/
theorem fetch_error_message_counterexample :
    errMessage emptyMessageError = some ""
    ∧ (fetchUsers usersStateBefore (Except.error emptyMessageError)).errorMsg
        = "Failed to fetch users"
    ∧ (fetchUsers usersStateBefore (Except.error emptyMessageError)).errorMsg ≠ "" := by
  refine ⟨rfl, rfl, by decide⟩

/-- C9 amended: on every failing list fetch the previously displayed rows are
left in place, and the displayed error message is the backend's structured
message when present and nonempty, else the page's generic fallback (also
when the backend's message is the empty string) — for both the Users and the
Teachers list views. -/
theorem fetch_error_frame_amended (stU : UsersPageState) (stT : TeachersPageState)
    (e : AxiosError) :
    (fetchUsers stU (Except.error e)).users = stU.users
    ∧ (∀ m, errMessage e = some m → m ≠ "" →
        (fetchUsers stU (Except.error e)).errorMsg = m)
    ∧ ((errMessage e = none ∨ errMessage e = some "") →
        (fetchUsers stU (Except.error e)).errorMsg = "Failed to fetch users")
    ∧ (fetchTeachers stT (Except.error e)).teachers = stT.teachers
    ∧ (∀ m, errMessage e = some m → m ≠ "" →
        (fetchTeachers stT (Except.error e)).errorMsg = m)
    ∧ ((errMessage e = none ∨ errMessage e = some "") →
        (fetchTeachers stT (Except.error e)).errorMsg = "Failed to fetch teachers") := by
  refine ⟨rfl, ?_, ?_, rfl, ?_, ?_⟩
  · intro m hm hne
    have hb : (m == "") = false := beq_eq_false_iff_ne.mpr hne
    simp [fetchUsers, jsStringOr, hm, hb]
  · rintro (hm | hm) <;> simp [fetchUsers, jsStringOr, hm]
  · intro m hm hne
    have hb : (m == "") = false := beq_eq_false_iff_ne.mpr hne
    simp [fetchTeachers, jsStringOr, hm, hb]
  · rintro (hm | hm) <;> simp [fetchTeachers, jsStringOr, hm]

/-- Witness for the amended C9 at a concrete failing fetch with a nonempty
backend message. -/
theorem fetch_error_frame_amended_witness :
    (fetchUsers usersStateBefore (Except.error boomError)).errorMsg = "boom" :=
  (fetch_error_frame_amended usersStateBefore teachersStateBefore boomError).2.1
    "boom" rfl (by decide)

/-! ### Slug generator lemmas -/

/-- Evaluating `Char.ofNat` at a valid code point. -/
theorem toNat_ofNat_valid (n : Nat) (h : n.isValidChar) : (Char.ofNat n).toNat = n := by
  simp [Char.ofNat, h, Char.toNat, Char.ofNatAux, UInt32.toNat, BitVec.toNat_ofNatLt]

/-- Lower-casing never produces an ASCII uppercase letter. -/
theorem jsToLower_not_upper (c : Char) :
    ¬(65 ≤ (jsToLower c).toNat ∧ (jsToLower c).toNat ≤ 90) := by
  unfold jsToLower
  by_cases h : (65 ≤ c.toNat && c.toNat ≤ 90) = true
  · rw [if_pos h]
    simp only [Bool.and_eq_true, decide_eq_true_eq] at h
    have hv : (c.toNat + 32).isValidChar := Or.inl (by omega)
    rw [toNat_ofNat_valid _ hv]
    omega
  · rw [if_neg h]
    simp only [Bool.and_eq_true, decide_eq_true_eq] at h
    omega

/-- A kept, non-collapsible, non-uppercase character is a slug character. -/
theorem keep_not_collapsible_slug (c : Char)
    (hupper : ¬(65 ≤ c.toNat ∧ c.toNat ≤ 90))
    (hk : keepChar c = true) (hc : collapsibleChar c = false) :
    slugChar c = true := by
  simp [keepChar, collapsibleChar, slugChar, jsWordChar, jsWordCharN,
    jsSpaceChar, jsSpaceCharN] at hk hc ⊢
  omega

/-- A slug character is kept by the removal pass, is not whitespace, and is
not an ASCII uppercase letter; if it is collapsible it is the hyphen. -/
theorem slugChar_props (c : Char) (h : slugChar c = true) :
    keepChar c = true ∧ jsSpaceChar c = false
    ∧ ¬(65 ≤ c.toNat ∧ c.toNat ≤ 90)
    ∧ (collapsibleChar c = true → c.toNat = 45) := by
  simp [keepChar, collapsibleChar, slugChar, jsWordChar, jsWordCharN,
    jsSpaceChar, jsSpaceCharN] at h ⊢
  omega

/-- A character whose code point is 45 is the hyphen. -/
theorem eq_hyphen_of_toNat (c : Char) (h : c.toNat = 45) : c = '-' := by
  have := Char.ofNat_toNat c
  rw [h] at this
  exact this.symm

/-- The hyphen is collapsible. -/
theorem collapsible_hyphen : collapsibleChar '-' = true := by decide

/-- Characters of the collapsed list are hyphens or non-collapsible members
of the input. -/
theorem collapseRuns_chars (l : List Char) :
    ∀ b, ∀ c ∈ collapseRuns b l, c = '-' ∨ (c ∈ l ∧ collapsibleChar c = false) := by
  induction l with
  | nil =>
    intro b c hc
    simp [collapseRuns] at hc
  | cons a rest ih =>
    intro b c hc
    simp only [collapseRuns] at hc
    by_cases ha : collapsibleChar a = true
    · rw [if_pos ha] at hc
      cases b with
      | true =>
        simp only [if_pos] at hc
        rcases ih true c hc with h | ⟨hm, hcol⟩
        · exact Or.inl h
        · exact Or.inr ⟨List.mem_cons_of_mem _ hm, hcol⟩
      | false =>
        simp only [Bool.false_eq_true, if_neg] at hc
        rcases List.mem_cons.mp hc with h | h
        · exact Or.inl h
        · rcases ih true c h with h' | ⟨hm, hcol⟩
          · exact Or.inl h'
          · exact Or.inr ⟨List.mem_cons_of_mem _ hm, hcol⟩
    · rw [if_neg ha] at hc
      rcases List.mem_cons.mp hc with h | h
      · subst h
        exact Or.inr ⟨List.mem_cons_self _ _, by simpa using ha⟩
      · rcases ih false c h with h' | ⟨hm, hcol⟩
        · exact Or.inl h'
        · exact Or.inr ⟨List.mem_cons_of_mem _ hm, hcol⟩

/-- The collapsed list never has two adjacent hyphens, and when the flag says
a run is already open its head is not a hyphen. -/
theorem collapseRuns_chain (l : List Char) :
    ∀ b, List.Chain' notBothHyphens (collapseRuns b l)
      ∧ (b = true → ∀ x, (collapseRuns b l).head? = some x → x ≠ '-') := by
  induction l with
  | nil =>
    intro b
    exact ⟨List.chain'_nil, fun _ x hx => by simp [collapseRuns] at hx⟩
  | cons a rest ih =>
    intro b
    by_cases ha : collapsibleChar a = true
    · cases b with
      | true =>
        have : collapseRuns true (a :: rest) = collapseRuns true rest := by
          simp [collapseRuns, ha]
        rw [this]
        exact ih true
      | false =>
        have hrw : collapseRuns false (a :: rest) = '-' :: collapseRuns true rest := by
          simp [collapseRuns, ha]
        rw [hrw]
        refine ⟨List.chain'_cons'.mpr ⟨?_, (ih true).1⟩, ?_⟩
        · intro y hy
          have hy' : y ≠ '-' := (ih true).2 rfl y hy
          exact fun ⟨_, h2⟩ => hy' h2
        · intro hfalse
          cases hfalse
    · have hrw : collapseRuns b (a :: rest) = a :: collapseRuns false rest := by
        simp [collapseRuns, ha]
      have hane : a ≠ '-' := by
        intro h
        rw [h] at ha
        exact ha collapsible_hyphen
      rw [hrw]
      refine ⟨List.chain'_cons'.mpr ⟨?_, (ih false).1⟩, ?_⟩
      · intro y _
        exact fun ⟨h1, _⟩ => hane h1
      · intro _ x hx
        rw [List.head?_cons, Option.some_inj] at hx
        rw [← hx]
        exact hane

/-- The head of a `dropWhile` result fails the predicate. -/
theorem head?_dropWhile (p : Char → Bool) :
    ∀ (l : List Char) (x : Char), (List.dropWhile p l).head? = some x → p x = false := by
  intro l
  induction l with
  | nil =>
    intro x hx
    simp [List.dropWhile] at hx
  | cons a rest ih =>
    intro x hx
    by_cases ha : p a = true
    · rw [List.dropWhile_cons, if_pos ha] at hx
      exact ih x hx
    · rw [List.dropWhile_cons, if_neg ha, List.head?_cons, Option.some_inj] at hx
      rw [← hx]
      simpa using ha

/-- Membership survives `dropWhile`. -/
theorem mem_of_mem_dropWhile (p : Char → Bool) (l : List Char) (c : Char)
    (hc : c ∈ List.dropWhile p l) : c ∈ l :=
  (List.dropWhile_suffix p).subset hc

/-- Membership survives `dropEnd`. -/
theorem mem_of_mem_dropEnd (p : Char → Bool) (l : List Char) (c : Char)
    (hc : c ∈ dropEnd p l) : c ∈ l := by
  unfold dropEnd at hc
  rw [List.mem_reverse] at hc
  exact List.mem_reverse.mp ((List.dropWhile_suffix p).subset hc)

/-- `dropEnd` keeps the head of a list. -/
theorem head?_dropEnd (p : Char → Bool) (l : List Char) (x : Char)
    (hx : (dropEnd p l).head? = some x) : l.head? = some x := by
  obtain ⟨t, ht⟩ := List.dropWhile_suffix (l := l.reverse) p
  have h2 := congrArg List.reverse ht
  rw [List.reverse_append, List.reverse_reverse] at h2
  have hl : l = dropEnd p l ++ t.reverse := h2.symm
  rw [hl, List.head?_append, hx, Option.or_some]

/-- The last element surviving `dropEnd` fails the predicate. -/
theorem getLast?_dropEnd (p : Char → Bool) (l : List Char) (x : Char)
    (hx : (dropEnd p l).getLast? = some x) : p x = false := by
  unfold dropEnd at hx
  rw [← List.head?_reverse, List.reverse_reverse] at hx
  exact head?_dropWhile p l.reverse x hx

/-- The no-adjacent-hyphens relation is symmetric. -/
theorem notBothHyphens_symm (a b : Char) (h : notBothHyphens a b) :
    notBothHyphens b a :=
  fun hp => h ⟨hp.2, hp.1⟩

/-- `dropEnd` preserves the no-adjacent-hyphens chain. -/
theorem chain_dropEnd (p : Char → Bool) (l : List Char)
    (h : List.Chain' notBothHyphens l) :
    List.Chain' notBothHyphens (dropEnd p l) := by
  unfold dropEnd
  have h1 : List.Chain' notBothHyphens l.reverse :=
    List.chain'_reverse.mpr (h.imp fun a b hab => notBothHyphens_symm a b hab)
  have h2 : List.Chain' notBothHyphens (l.reverse.dropWhile p) :=
    h1.suffix (List.dropWhile_suffix p)
  exact List.chain'_reverse.mpr (h2.imp fun a b hab => notBothHyphens_symm a b hab)

/-- Every slug output has slug characters only, no two adjacent hyphens, and
no hyphen at either end. -/
theorem generateSlug_good (title : List Char) :
    (∀ c ∈ generateSlug title, slugChar c = true)
    ∧ List.Chain' notBothHyphens (generateSlug title)
    ∧ (∀ x, (generateSlug title).head? = some x → x ≠ '-')
    ∧ (∀ x, (generateSlug title).getLast? = some x → x ≠ '-') := by
  refine ⟨?_, ?_, ?_, ?_⟩
  · intro c hc
    unfold generateSlug stripEdgeHyphens at hc
    have hc1 := mem_of_mem_dropWhile _ _ c (mem_of_mem_dropEnd _ _ c hc)
    rcases collapseRuns_chars _ false c hc1 with h | ⟨hm, hcol⟩
    · subst h
      decide
    · have hkeep : keepChar c = true := List.of_mem_filter hm
      have hmem2 := List.mem_of_mem_filter hm
      unfold jsTrim at hmem2
      have hmem3 := mem_of_mem_dropWhile _ _ c (mem_of_mem_dropEnd _ _ c hmem2)
      obtain ⟨a, _, rfl⟩ := List.mem_map.mp hmem3
      exact keep_not_collapsible_slug _ (jsToLower_not_upper a) hkeep hcol
  · unfold generateSlug stripEdgeHyphens
    exact chain_dropEnd _ _
      (((collapseRuns_chain _ false).1).suffix (List.dropWhile_suffix _))
  · intro x hx
    unfold generateSlug stripEdgeHyphens at hx
    have h2 := head?_dropWhile _ _ x (head?_dropEnd _ _ x hx)
    intro h
    rw [h] at h2
    simp at h2
  · intro x hx
    unfold generateSlug stripEdgeHyphens at hx
    have h2 := getLast?_dropEnd _ _ x hx
    intro h
    rw [h] at h2
    simp at h2

/-- Mapping a function that fixes every member fixes the list. -/
theorem map_id_of_mem (f : Char → Char) {l : List Char} (h : ∀ c ∈ l, f c = c) :
    l.map f = l := by
  induction l with
  | nil => rfl
  | cons a rest ih =>
    rw [List.map_cons, h a (List.mem_cons_self _ _),
      ih fun c hc => h c (List.mem_cons_of_mem _ hc)]

/-- `dropWhile` fixes a list whose head fails the predicate. -/
theorem dropWhile_eq_self_of (p : Char → Bool) (l : List Char)
    (h : ∀ x, l.head? = some x → p x = false) : l.dropWhile p = l := by
  cases l with
  | nil => rfl
  | cons a rest =>
    rw [List.dropWhile_cons, if_neg]
    simp [h a rfl]

/-- `dropEnd` fixes a list whose last element fails the predicate. -/
theorem dropEnd_eq_self_of (p : Char → Bool) (l : List Char)
    (h : ∀ x, l.getLast? = some x → p x = false) : dropEnd p l = l := by
  unfold dropEnd
  rw [dropWhile_eq_self_of p l.reverse, List.reverse_reverse]
  intro x hx
  rw [List.head?_reverse] at hx
  exact h x hx

/-- Lower-casing fixes slug characters. -/
theorem jsToLower_slug_fixed (c : Char) (h : slugChar c = true) :
    jsToLower c = c := by
  have hupper := (slugChar_props c h).2.2.1
  have hb : ¬((65 ≤ c.toNat && c.toNat ≤ 90) = true) := by
    simp only [Bool.and_eq_true, decide_eq_true_eq]
    exact hupper
  unfold jsToLower
  rw [if_neg hb]

/-- Collapsing fixes a list of slug characters with no adjacent hyphens,
provided an open run implies the head is not a hyphen. -/
theorem collapseRuns_fixed (l : List Char) :
    ∀ b, (∀ c ∈ l, slugChar c = true) → List.Chain' notBothHyphens l →
      (b = true → ∀ x, l.head? = some x → x ≠ '-') →
      collapseRuns b l = l := by
  induction l with
  | nil =>
    intro b _ _ _
    rfl
  | cons a rest ih =>
    intro b hchars hchain hb
    have hsa : slugChar a = true := hchars a (List.mem_cons_self _ _)
    by_cases ha : collapsibleChar a = true
    · have ha45 : a = '-' := eq_hyphen_of_toNat a ((slugChar_props a hsa).2.2.2 ha)
      cases b with
      | true => exact absurd ha45 (hb rfl a List.head?_cons)
      | false =>
        have hrest : collapseRuns true rest = rest := by
          apply ih true (fun c hc => hchars c (List.mem_cons_of_mem _ hc)) hchain.tail
          intro _ x hx
          have hrel := (List.chain'_cons'.mp hchain).1 x (Option.mem_def.mpr hx)
          rw [ha45] at hrel
          intro hx45
          exact hrel ⟨rfl, hx45⟩
        calc collapseRuns false (a :: rest)
            = '-' :: collapseRuns true rest := by simp [collapseRuns, ha]
          _ = a :: rest := by rw [hrest, ha45]
    · have hrest : collapseRuns false rest = rest :=
        ih false (fun c hc => hchars c (List.mem_cons_of_mem _ hc)) hchain.tail
          (fun h => absurd h (by decide))
      simp [collapseRuns, ha, hrest]

/-- Stripping edge hyphens fixes a list with no hyphen at either end. -/
theorem stripEdgeHyphens_eq_self (l : List Char)
    (hhead : ∀ x, l.head? = some x → x ≠ '-')
    (hlast : ∀ x, l.getLast? = some x → x ≠ '-') :
    stripEdgeHyphens l = l := by
  have hfail : ∀ (x : Char), x ≠ '-' → ((x.toNat == 45) = false) := by
    intro x hne
    by_cases h45 : x.toNat = 45
    · exact absurd (eq_hyphen_of_toNat x h45) hne
    · exact beq_eq_false_iff_ne.mpr h45
  unfold stripEdgeHyphens
  rw [dropWhile_eq_self_of _ l fun x hx => hfail x (hhead x hx)]
  exact dropEnd_eq_self_of _ l fun x hx => hfail x (hlast x hx)

/-- The head of a list is a member. -/
theorem mem_of_head? (l : List Char) (x : Char) (h : l.head? = some x) : x ∈ l := by
  cases l with
  | nil => cases h
  | cons a rest =>
    rw [List.head?_cons, Option.some_inj] at h
    rw [← h]
    exact List.mem_cons_self _ _

/-- A list already in slug shape is a fixed point of `generateSlug`. -/
theorem generateSlug_fixed (l : List Char)
    (hchars : ∀ c ∈ l, slugChar c = true)
    (hchain : List.Chain' notBothHyphens l)
    (hhead : ∀ x, l.head? = some x → x ≠ '-')
    (hlast : ∀ x, l.getLast? = some x → x ≠ '-') :
    generateSlug l = l := by
  unfold generateSlug
  rw [map_id_of_mem jsToLower fun c hc => jsToLower_slug_fixed c (hchars c hc)]
  have h2 : jsTrim l = l := by
    unfold jsTrim
    have hspace : ∀ c ∈ l, jsSpaceChar c = false :=
      fun c hc => (slugChar_props c (hchars c hc)).2.1
    rw [dropWhile_eq_self_of _ l fun x hx => hspace x (mem_of_head? l x hx)]
    refine dropEnd_eq_self_of _ l fun x hx => hspace x ?_
    rw [← List.head?_reverse] at hx
    exact List.mem_reverse.mp (mem_of_head? l.reverse x hx)
  rw [h2]
  rw [List.filter_eq_self.mpr fun c hc => (slugChar_props c (hchars c hc)).1]
  rw [collapseRuns_fixed l false hchars hchain (fun h => absurd h (by decide))]
  exact stripEdgeHyphens_eq_self l hhead hlast

/-- C10: every slug consists only of lowercase ASCII letters, digits, and
hyphens, with no two adjacent hyphens and no hyphen at either end, and the
generator is idempotent: applied to its own output it returns that output
unchanged. -/
theorem generateSlug_shape_idempotent (title : List Char) :
    (∀ c ∈ generateSlug title, slugChar c = true)
    ∧ List.Chain' notBothHyphens (generateSlug title)
    ∧ (∀ x, (generateSlug title).head? = some x → x ≠ '-')
    ∧ (∀ x, (generateSlug title).getLast? = some x → x ≠ '-')
    ∧ generateSlug (generateSlug title) = generateSlug title := by
  obtain ⟨h1, h2, h3, h4⟩ := generateSlug_good title
  exact ⟨h1, h2, h3, h4, generateSlug_fixed _ h1 h2 h3 h4⟩

end TutorAdmin
